import Mathlib

/-!
Verification of the glauce-seiso reconciliation pipeline.

This file gives a shallow embedding, in Lean 4, of the parts of the
repository that the frozen claims are about:

* the Seiso inventory client (`seisoClient` module, concatenated into
  `src/endecoder.js` in this snapshot): node upsert validation, the
  create/update conflict handlers, IP-address set reconciliation;
* the event mapper (`src/mapper.js`): `validateMessage`, `instanceToNode`;
* the custom-transformer chain and rotation handlers (`src/orchestrator.js`);
* the listener message classification and validation (`src/listener.js`);
* the orchestrator lifecycle state machine (`src/orchestrator.js`).

Remote I/O is modelled by an explicit environment (`SeisoEnv`, `AwsEnv`)
mapping each remote call to its response, and every client operation runs
in a small state monad that records the trace of issued remote calls, so
that theorems can talk about which calls an operation performs.

JavaScript-specific behaviour that the claims hinge on is embedded
explicitly and commented at the point of use: reading an undeclared
identifier throws a `ReferenceError` (strict mode), property access on
`null`/`undefined` throws a `TypeError`, every object (including an empty
array) is truthy, and a `var`-declared loop variable is shared by all
closures created in the loop body.
-/

/-! ## Preliminaries -/

instance [DecidableEq ε] [DecidableEq α] : DecidableEq (Except ε α) := fun x y =>
  match x, y with
  | .ok a, .ok b =>
      if h : a = b then .isTrue (congrArg Except.ok h)
      else .isFalse (fun hc => h (Except.ok.inj hc))
  | .error e, .error f =>
      if h : e = f then .isTrue (congrArg Except.error h)
      else .isFalse (fun hc => h (Except.error.inj hc))
  | .ok _, .error _ => .isFalse (fun hc => Except.noConfusion hc)
  | .error _, .ok _ => .isFalse (fun hc => Except.noConfusion hc)

/-- JavaScript `String.prototype.split` with a one-character separator (the
source only ever splits on a single character: the dot of an FQDN and the
slash of a resource link). Splitting the empty string yields one empty
segment, exactly as in JavaScript. -/
def splitOnChar (sep : Char) (s : String) : List String :=
  (s.data.foldr
    (fun ch acc =>
      match acc with
      | [] => [[ch]]
      | cur :: rest => if ch = sep then [] :: cur :: rest else (ch :: cur) :: rest)
    [[]]).map String.mk

/-! ## JavaScript error values -/

/-- Errors a promise chain in the source can reject with: a strict-mode
`ReferenceError` for an undeclared identifier, a `TypeError` for a property
access on `null`/`undefined` (or a missing method), an `Error` thrown with a
message, a `Promise.reject` of a message object, a rejection carrying a
validation-error list, and a remote HTTP error response with its status
code. -/
inductive JsError where
  | referenceError (name : String)
  | typeError (msg : String)
  | thrown (msg : String)
  | reject (msg : String)
  | validation (validationErrors : List String)
  | http (statusCode : Nat)
deriving DecidableEq, Repr

/-- JS truthiness of an optional string value: `undefined` and the empty
string are falsy, any other string is truthy. -/
def jsTruthyStr : Option String → Bool
  | none => false
  | some s => s ≠ ""

/-- In JavaScript every object is truthy; in particular an array is truthy
even when it is empty, and `Array.prototype.filter` always returns an
array. This models the truthiness of an array-valued expression. -/
def jsArrayTruthy (_ : List α) : Bool := true

/-! ## Seiso REST records and calls -/

/-- A record returned by the Seiso API. Only the parts the embedded code
reads are kept: the self link (`_links.self.href`), and the `name` and
`key` attributes used by lookups. -/
structure SeisoRecord where
  selfLink : String
  name : String := ""
  key : String := ""
deriving DecidableEq, Repr

/-- A node IP-address record from `nodes/{id}/ipAddresses` (embedded
collection `nodeIpAddresses`): its self link and its `ipAddress` field. -/
structure IpRecord where
  selfLink : String
  ipAddress : String
deriving DecidableEq, Repr

/-- The body of a Seiso response after envelope unwrapping: `null` (for an
ignored error code), a single resource record, or an item collection. The
source code distinguishes these with `Array.isArray` checks. -/
inductive SeisoVal where
  | null
  | record (r : SeisoRecord)
  | array (rs : List SeisoRecord)
deriving DecidableEq, Repr

/-- `getRestRecordLink` from the source: `record._links.self.href`. -/
def getRestRecordLink (record : SeisoRecord) : String :=
  record.selfLink

/-- The identifier at the end of a resource self link:
`link.split('/').pop()`. -/
def restIdOfLink (link : String) : String :=
  (splitOnChar '/' link).getLastD ""

/-- `getRestRecordId` from the source: `getRestRecordLink(record).split('/').pop()`. -/
def getRestRecordId (record : SeisoRecord) : String :=
  restIdOfLink (getRestRecordLink record)

/-- Property access `value._links.self.href` on an unwrapped response
value. On `null` this throws a `TypeError`; on an array, `_links` is
`undefined` and reading `.self` from it throws a `TypeError` as well. -/
def jsRecordLink : SeisoVal → Except JsError String
  | .record r => .ok (getRestRecordLink r)
  | .null => .error (.typeError "Cannot read _links of null")
  | .array _ => .error (.typeError "Cannot read self of undefined")

/-- One remote call issued by the Seiso client, identified by HTTP verb,
resource, and the natural key or identifier it targets. -/
inductive SeisoCall where
  | getNodesByName (name : String)
  | getServiceByKey (key : String)
  | postService (key : String)
  | getServiceInstanceByKey (key : String)
  | postServiceInstance (key : String)
  | postServiceInstancePort (port : Nat)
  | postIpAddressRole (serviceInstanceLink : String)
  | getMachineByName (name : String)
  | postMachine (name : String)
  | putMachine (id : String)
  | postNode (name : String)
  | putNode (id : String)
  | getNodeIpAddresses (nodeId : String)
  | getIpAddressRoles (serviceInstanceId : String)
  | deleteNodeIpAddress (recId : String)
  | postNodeIpAddress (roleLink : String) (addr : String)
  | patchNodeRotationStatus (nodeId : String)
deriving DecidableEq, Repr

/-- The remote inventory, as an oracle from each call shape to the response
the server would give: `Except Nat v` is a response `v` or an HTTP error
status code. -/
structure SeisoEnv where
  nodesByName : String → Except Nat SeisoVal
  serviceByKey : String → Except Nat SeisoVal
  createService : String → Except Nat SeisoVal
  serviceInstanceByKey : String → Except Nat SeisoVal
  createServiceInstance : String → Except Nat SeisoVal
  createServiceInstancePort : Nat → Except Nat SeisoVal
  createIpAddressRole : String → Except Nat SeisoVal
  machineByName : String → Except Nat SeisoVal
  createMachine : String → Except Nat SeisoVal
  updateMachine : String → Except Nat SeisoVal
  createNode : String → Except Nat SeisoVal
  updateNode : String → Except Nat SeisoVal
  nodeIpAddresses : String → Except Nat (Option (List IpRecord))
  ipAddressRoles : String → Except Nat SeisoVal
  deleteIpAddr : String → Except Nat Unit
  createIpAddr : String → Except Nat Unit
  patchNode : String → Except Nat Unit

/-! ## The client computation monad: exceptions plus a call trace -/

/-- A Seiso client computation: threads the trace of issued remote calls
and may fail with a `JsError` (the trace up to the failure is kept). -/
def SeisoM (α : Type) : Type :=
  List SeisoCall → Except JsError α × List SeisoCall

instance : Monad SeisoM where
  pure a := fun t => (.ok a, t)
  bind m f := fun t =>
    match m t with
    | (.ok a, t2) => f a t2
    | (.error e, t2) => (.error e, t2)

/-- Fail the computation with a JavaScript error value. -/
def throwS (e : JsError) : SeisoM α := fun t => (.error e, t)

/-- Lift a pure `Except` (for example a property access that can throw)
into the monad. -/
def liftJs (x : Except JsError α) : SeisoM α := fun t => (x, t)

/-- Issue one remote call: record it on the trace and either return the
response or fail with the HTTP error. -/
def issue (c : SeisoCall) (resp : Except Nat α) : SeisoM α :=
  fun t =>
    match resp with
    | .ok a => (.ok a, t ++ [c])
    | .error code => (.error (.http code), t ++ [c])

/-- The `ignoredErrorCodes: [ERROR_NOT_FOUND]` option of `seisoRequest`:
a 404 response resolves to `null` instead of failing. -/
def ignoring404 : Except Nat SeisoVal → Except Nat SeisoVal
  | .error 404 => .ok .null
  | x => x

/-- The `ignoredErrorCodes: [ERROR_CONFLICT]` option of `seisoRequest` on
a call whose body is unused: a 409 response resolves successfully. -/
def ignoring409 : Except Nat Unit → Except Nat Unit
  | .error 409 => .ok ()
  | x => x

/-- The `ignoredErrorCodes: [ERROR_CONFLICT]` option on a POST whose
unwrapped body is a resource value: a 409 resolves to `null`. -/
def ignoring409V : Except Nat SeisoVal → Except Nat SeisoVal
  | .error 409 => .ok .null
  | x => x

/-- Collect the first rejection among a list of settled promise outcomes,
as `Promise.all` reports it. -/
def firstErrorOf : List (Except JsError α) → Option JsError
  | [] => none
  | .ok _ :: rest => firstErrorOf rest
  | .error e :: _ => some e

/-- Issue one remote call and return its outcome without short-circuiting
the computation (models a promise that has been started and whose result
is collected later, e.g. by `Promise.all`). -/
def issueCollect (c : SeisoCall) (resp : Except Nat α) : SeisoM (Except JsError α) :=
  fun t =>
    match resp with
    | .ok a => (.ok (.ok a), t ++ [c])
    | .error code => (.ok (.error (.http code)), t ++ [c])

/-- Run a subcomputation and collect its outcome instead of
short-circuiting (a started promise whose settlement will be observed
later, e.g. inside a `Promise.all` work list). -/
def tryS (m : SeisoM α) : SeisoM (Except JsError α) := fun t =>
  match m t with
  | (.ok a, t2) => (.ok (.ok a), t2)
  | (.error e, t2) => (.ok (.error e), t2)

/-- Run a client computation on the empty trace, returning the outcome and
the full list of remote calls issued. -/
def runSeiso (m : SeisoM α) : Except JsError α × List SeisoCall :=
  m []

/-! ## EventMapper (`src/mapper.js`) -/

/-- The fields of an EC2 instance-details object that the mapper and the
rotation handlers read. A `none` field is an absent (`undefined`)
property. -/
structure InstanceDetails where
  InstanceId : Option String := none
  PrivateDnsName : Option String := none
  status : Option String := none
  state : Option String := none
  region : Option String := none
deriving DecidableEq, Repr

/-- `validateMessage` from `src/mapper.js`. The very first statement reads
`details.InstanceId`; when `details` is `null` or `undefined` that property
access throws a `TypeError` before the null/undefined guard further down is
ever reached, so the guard (which would push the message
"Instance details not present" and return) is dead code. For a present
`details` object the function returns the ordered validation-error list. -/
def validateMessage (details : Option InstanceDetails) : Except JsError (List String) :=
  match details with
  | none => .error (.typeError "Cannot read InstanceId of null or undefined")
  | some d =>
    let errs1 :=
      match d.InstanceId with
      | none => ["Instance ID not present"]
      | some s => if s.length = 0 then ["Instance ID not present"] else []
    -- the source guard `typeof details === 'undefined' || details === null`
    -- sits here; it is unreachable because the access above already threw
    let errs2 :=
      if ¬ jsTruthyStr d.PrivateDnsName then errs1 ++ ["Instance not named"]
      else
        let parsedName := splitOnChar '.' (d.PrivateDnsName.getD "")
        if parsedName.length < 2 then errs1 ++ ["Instance DNS name not an FQDN"]
        else errs1
    .ok errs2

/-- The canonical node record built by `instanceToNode`: exactly the
properties the source assigns (a `domain` is computed from the split name
but never stored on the node). -/
structure SNode where
  name : String
  machineName : String
  hostname : String
  aggregateRotationStatus : Bool
  tags : List (String × String)
deriving DecidableEq, Repr

/-- `instanceToNode` from `src/mapper.js`: name is the instance identifier,
machine name is the private DNS name, hostname is its first dot-separated
segment, the rotation hint compares `status` against the string "down", and
the tag map is seeded with the AWS-Instance-ID tag. Callers validate
first, so `PrivateDnsName` is a present string here. -/
def instanceToNode (inst : InstanceDetails) : SNode :=
  let instanceId := inst.InstanceId.getD ""
  let machineName := inst.PrivateDnsName.getD ""
  let parsedName := splitOnChar '.' machineName
  { name := instanceId
    machineName := machineName
    hostname := parsedName.headD ""
    aggregateRotationStatus := inst.status = some "down"
    tags := [("AWS Instance ID", instanceId)] }

/-! ## Custom transformer chain (`map` inside `rotateInstance`,
`src/orchestrator.js`) -/

/-- One custom transformer: a name and a map function that either returns
the transformed node or fails with an error value. -/
structure NamedMapper where
  name : String
  map : SNode → Except String SNode

/-- The error reported when a transformer stage fails: the failing
transformer is identified by name alongside its error. -/
structure ChainError where
  mapper : String
  error : String
deriving DecidableEq, Repr

/-- The recursive `map(mappers, index, node, callback)` helper: when no
transformers remain the current node is delivered; otherwise the head
transformer runs on the node and, on success, the rest of the chain runs on
its output, while on failure the chain stops and reports the failing
transformer by name. The source recurses on an index into the array; this
is the same recursion on the remaining suffix. -/
def mapChain : List NamedMapper → SNode → Except ChainError SNode
  | [], node => .ok node
  | m :: ms, node =>
    match m.map node with
    | .error e => .error { mapper := m.name, error := e }
    | .ok node2 => mapChain ms node2

/-! ## Listener (`src/listener.js`) -/

/-- One entry of `detail.requestParameters.instances`. -/
structure LbInstanceRef where
  instanceId : Option String := none
deriving DecidableEq, Repr

/-- `detail.requestParameters` of the canonical event envelope. -/
structure RequestParameters where
  instances : Option (List LbInstanceRef) := none
  loadBalancerName : Option String := none
deriving DecidableEq, Repr

/-- `detail` of the canonical event envelope. -/
structure MsgDetail where
  requestParameters : RequestParameters := {}
  eventName : Option String := none
deriving DecidableEq, Repr

/-- A parsed ingested message: its classification (`detail-type`), detail,
source region, and the receipt handle used as deletion token. -/
structure IngestMsg where
  detailType : Option String := none
  detail : MsgDetail := {}
  region : Option String := none
  deletionToken : String := ""
deriving DecidableEq, Repr

/-- The classification string of load-balancer register/deregister events
(`EC2_INSTANCE_LB_REGISTRATION_EVENT_TYPE`). -/
def lbRegistrationEventType : String := "AWS API Call via CloudTrail"

/-- `messageValidate` from `src/listener.js`: the truthiness of
`rp.instances && rp.instances.filter(i => i.instanceId) &&
rp.loadBalancerName && detail.eventName`. Note that the filter result is an
array and an array is always truthy, even when empty, so the filter term
never makes the conjunction false. -/
def messageValidate (message : IngestMsg) : Bool :=
  let rp := message.detail.requestParameters
  match rp.instances with
  | none => false
  | some instances =>
    jsArrayTruthy (instances.filter (fun i => jsTruthyStr i.instanceId)) &&
    jsTruthyStr rp.loadBalancerName &&
    jsTruthyStr message.detail.eventName

/-- One ELB load-balancer description with its member instance ids. -/
structure LoadBalancerDesc where
  loadBalancerName : String
  instanceIds : List String
deriving DecidableEq, Repr

/-- Responses of the cloud control-plane calls the listener makes while
processing one message. -/
structure AwsEnv where
  autoScalingInstances : Except String (List String)
  elbLoadBalancers : Except String (List LoadBalancerDesc)
  describeInstances : Except String (List (List InstanceDetails))

/-- `resolveLoadBalancer` from `src/listener.js`. The trailing catch maps
every failure (including the thrown "Cannot monitor Autoscaled instances"
and "No LoadBalancer found" errors) to a resolved `null`, so the promise
always fulfills. The membership filter tests the truthiness of an inner
`filter` result, which is an always-truthy array. -/
def resolveLoadBalancer (env : AwsEnv) (instanceId : Option String) :
    Option (List LoadBalancerDesc) :=
  match env.autoScalingInstances with
  | .error _ => none
  | .ok autoScaleInstances =>
    if autoScaleInstances.length > 0 then none
    else
      match env.elbLoadBalancers with
      | .error _ => none
      | .ok lbs =>
        let matched := lbs.filter (fun lb =>
          jsArrayTruthy (lb.instanceIds.filter (fun i => some i = instanceId)))
        if matched.length < 1 then none else some matched

/-- A semantic event emitted by the listener, carrying the deletion token
and the enriched instance list. -/
inductive SemanticEvent where
  | rotateIn (deletionToken : String) (instances : List InstanceDetails)
  | rotateOut (deletionToken : String) (instances : List InstanceDetails)
deriving DecidableEq, Repr

/-- The observable outcome of `processMessage` for one message: the
semantic events emitted, whether the message was acknowledged (deleted),
and whether processing of this message failed with an error (a synchronous
throw or a rejection logged by the trailing catch). The raw `message`
observability event, emitted for every message, is not tracked here. -/
structure ProcessResult where
  semanticEvents : List SemanticEvent
  acked : Bool
  failed : Bool
deriving DecidableEq, Repr

/-- `processMessage` from `src/listener.js`, after body parsing and
envelope unwrapping. A message classified as a load-balancer
register/deregister event is validated (a failure throws), its first
instance id is passed to `resolveLoadBalancer` (whose result is discarded),
full instance details are fetched for the batch, each instance is stamped
with the source region, and a semantic rotate event is emitted according to
the event name; failures on that path are logged by the trailing catch and
the message stays unacknowledged. Any other classification is acknowledged
immediately and emits nothing. -/
def processMessage (env : AwsEnv) (message : IngestMsg) : ProcessResult :=
  if message.detailType = some lbRegistrationEventType then
    if ¬ messageValidate message then
      { semanticEvents := [], acked := false, failed := true }
    else
      let instanceIds :=
        (message.detail.requestParameters.instances.getD []).map (·.instanceId)
      let eventName := message.detail.eventName
      let _resolved := resolveLoadBalancer env (instanceIds.headD none)
      match env.describeInstances with
      | .error _ => { semanticEvents := [], acked := false, failed := true }
      | .ok reservations =>
        let flat := reservations.flatten
        if flat.any (fun i => ¬ jsTruthyStr i.InstanceId) then
          { semanticEvents := [], acked := false, failed := true }
        else
          let instances := flat.map (fun i => { i with region := message.region })
          if eventName = some "DeregisterInstancesFromLoadBalancer" then
            { semanticEvents := [.rotateOut message.deletionToken instances]
              acked := false, failed := false }
          else if eventName = some "RegisterInstancesWithLoadBalancer" then
            { semanticEvents := [.rotateIn message.deletionToken instances]
              acked := false, failed := false }
          else
            { semanticEvents := [], acked := false, failed := false }
  else
    { semanticEvents := [], acked := true, failed := false }

/-! ## InventoryClient operations (`seisoClient` module) -/

/-- JavaScript string coercion of a possibly-null value, for the string
concatenations the source performs on links that may be `null`. -/
def jsStr : Option String → String
  | none => "null"
  | some s => s

/-- `getServiceAsync`: `GET services/search/findByKey` with 404 ignored. -/
def getServiceAsync (env : SeisoEnv) (key : String) : SeisoM SeisoVal :=
  issue (.getServiceByKey key) (ignoring404 (env.serviceByKey key))

/-- `getServiceInstanceAsync`: `GET serviceInstances/search/findByKey` for
the composite key `serviceKey + "-" + environment`, 404 ignored. -/
def getServiceInstanceAsync (env : SeisoEnv) (serviceKey environment : String) :
    SeisoM SeisoVal :=
  issue (.getServiceInstanceByKey (serviceKey ++ "-" ++ environment))
    (ignoring404 (env.serviceInstanceByKey (serviceKey ++ "-" ++ environment)))

/-- `findNodesAsync`: `GET nodes/search/findByName` with 404 ignored. The
tag filters in the options object are accepted but not sent (the search is
by name only, per the TODO in the source). -/
def findNodesAsync (env : SeisoEnv) (name : String) : SeisoM SeisoVal :=
  issue (.getNodesByName name) (ignoring404 (env.nodesByName name))

/-- `getMachinesByNameAsync(name)`: the body builds its request options
from `options.name`, but no `options` is declared in the function or any
enclosing scope (the parameter is `name`), so under strict mode evaluating
it throws a `ReferenceError` before any request is issued. -/
def getMachinesByNameAsync (_env : SeisoEnv) (_name : String) : SeisoM SeisoVal :=
  throwS (.referenceError "options")

/-- `createServiceAsync`: `POST services/` with no conflict handling. -/
def createServiceAsync (env : SeisoEnv) (key : String) : SeisoM SeisoVal :=
  issue (.postService key) (env.createService key)

/-- The request object handed to `createServiceInstanceAsync` by the node
upsert: the composite key, the service record link, the environment and
data-center record links when the precached domain data has them (else
`null`), the requested ports, and the load-balancing flags. -/
structure ServiceInstanceRequest where
  key : String
  service : String
  environment : Option String := none
  dataCenter : Option String := none
  ports : List Nat := []
  loadBalanced : Bool := false
  loadBalancer : Option String := none

/-- `getDefaultIpAddressRole`: `GET serviceInstances/{id}/ipAddressRoles`
(unwrapped), then pick the role named "default" from an item collection,
accept a single record named "default", and otherwise reject. -/
def getDefaultIpAddressRole (env : SeisoEnv) (serviceInstanceId : String) :
    SeisoM SeisoRecord := do
  let roles ← issue (.getIpAddressRoles serviceInstanceId)
    (env.ipAddressRoles serviceInstanceId)
  match roles with
  | .array rs =>
    match rs.find? (fun r => r.name = "default") with
    | some r => pure r
    | none => throwS (.reject "Unable to find default IP address role")
  | .record r =>
    if r.name = "default" then pure r
    else throwS (.reject "Unable to find default IP address role")
  | .null => throwS (.reject "Unable to find default IP address role")

/-- `createServiceInstanceAsync`: `POST serviceInstances/`; on a 409 the
existing service instance is re-fetched (note the source passes the
service record link and environment link, not the key and environment
type, into `getServiceInstanceAsync`); a `null` re-fetch result rejects
with the consistency message. On the resulting record, one
`ServiceInstancePort` per requested port plus one default `IpAddressRole`
are created as parallel fire-and-collect calls with conflicts ignored, and
the aggregate fails if any of them fails. -/
def createServiceInstanceAsync (env : SeisoEnv) (req : ServiceInstanceRequest) :
    SeisoM SeisoVal := do
  let r ← issueCollect (.postServiceInstance req.key) (env.createServiceInstance req.key)
  let serviceInstance ←
    match r with
    | .ok v => pure v
    | .error (.http 409) => do
        let v ← getServiceInstanceAsync env req.service (jsStr req.environment)
        match v with
        | .null => throwS (.reject "Creation of service instance failed with conflict but service instance not found")
        | found => pure found
    | .error e => throwS e
  let serviceInstanceLink ← liftJs (jsRecordLink serviceInstance)
  let portResults ← req.ports.mapM (fun p =>
    issueCollect (.postServiceInstancePort p)
      (ignoring409V (env.createServiceInstancePort p)))
  let roleResult ← issueCollect (.postIpAddressRole serviceInstanceLink)
    (ignoring409V (env.createIpAddressRole serviceInstanceLink))
  match firstErrorOf (portResults ++ [roleResult]) with
  | some e => throwS e
  | none => pure serviceInstance

/-- `syncNodeIpAddressesAsync`: fetch the node's bound addresses, issue one
delete for each existing address missing from the desired list (requests
started inside the first loop), collect the addresses present in both, and
compute the addresses still to add. When any remain, the default role is
fetched once, and one create is chained per remaining address; but each
chained callback closes over the one `var`-scoped `ipAddressToAdd`
variable, and the callbacks only run after the loop has finished, when
that variable holds the last element of the list — so every issued create
targets the last address to add. The aggregate waits for all started
operations and fails if any failed, else resolves with the node value. -/
def syncNodeIpAddressesAsync (env : SeisoEnv) (serviceInstanceId : String)
    (node : SeisoVal) (ipAddresses : List String) : SeisoM SeisoVal := do
  let nodeLink ← liftJs (jsRecordLink node)
  let existingIpAddresses ← issue (.getNodeIpAddresses (restIdOfLink nodeLink))
    (env.nodeIpAddresses (restIdOfLink nodeLink))
  let existingList :=
    match existingIpAddresses with
    | some l => l
    | none => []
  let toDelete := existingList.filter (fun e => ¬ ipAddresses.contains e.ipAddress)
  let deleteResults ← toDelete.mapM (fun e =>
    issueCollect (.deleteNodeIpAddress (restIdOfLink e.selfLink))
      (ignoring409 (env.deleteIpAddr (restIdOfLink e.selfLink))))
  let confirmedIpAddresses :=
    (existingList.filter (fun e => ipAddresses.contains e.ipAddress)).map (·.ipAddress)
  let ipAddressesToAdd :=
    ipAddresses.filter (fun a => ¬ confirmedIpAddresses.contains a)
  let createResults ←
    if ipAddressesToAdd.length > 0 then do
      let roleResult ← tryS (getDefaultIpAddressRole env serviceInstanceId)
      match roleResult with
      | .error e =>
        -- every chained create rejects with the role-lookup failure and
        -- never issues its request
        pure (ipAddressesToAdd.map (fun _ => (.error e : Except JsError Unit)))
      | .ok role =>
        -- the loop-variable capture: every create posts the final value of
        -- ipAddressToAdd, i.e. the last element of ipAddressesToAdd
        ipAddressesToAdd.mapM (fun _ =>
          issueCollect
            (.postNodeIpAddress (getRestRecordLink role) (ipAddressesToAdd.getLastD ""))
            (ignoring409 (env.createIpAddr (ipAddressesToAdd.getLastD ""))))
    else pure []
  match firstErrorOf (deleteResults ++ createResults) with
  | some e => throwS e
  | none => pure node

/-- The request object handed to `createNodeAsync` / `updateNodeAsync` by
the node upsert. -/
structure NodeRequest where
  name : String
  version : String := "1.0.0"
  serviceInstanceId : String := ""
  serviceInstanceLink : String := ""
  machine : String := ""
  ipAddresses : List String := []
  tags : List (String × String) := []

/-- `createNodeAsync`: `POST nodes/`; the conflict handler would re-fetch
by name and AWS-Instance-ID tag, but it builds the filter value from
`params.tags` while no `params` is declared in `createNodeAsync` or any
enclosing scope (the parameter is `nodeRequest`), so under strict mode a
409 makes the handler throw a `ReferenceError` before issuing any re-fetch.
On success the node's IP-address set is reconciled to the requested
addresses. -/
def createNodeAsync (env : SeisoEnv) (nodeRequest : NodeRequest) : SeisoM SeisoVal := do
  let r ← issueCollect (.postNode nodeRequest.name) (env.createNode nodeRequest.name)
  let node ←
    match r with
    | .ok v => pure v
    | .error (.http 409) => throwS (.referenceError "params")
    | .error e => throwS e
  syncNodeIpAddressesAsync env nodeRequest.serviceInstanceId node nodeRequest.ipAddresses

/-- `updateNodeAsync`: `PUT nodes/{id}` of the existing node; the conflict
handler reads `nodeRequest.name`, but no `nodeRequest` is declared in
`updateNodeAsync` or any enclosing scope (the parameters are
`existingNode` and `params`), so a 409 makes it throw a `ReferenceError`.
On success the IP-address set is reconciled. -/
def updateNodeAsync (env : SeisoEnv) (existingNode : SeisoVal) (params : NodeRequest) :
    SeisoM SeisoVal := do
  let existingLink ← liftJs (jsRecordLink existingNode)
  let r ← issueCollect (.putNode (restIdOfLink existingLink))
    (env.updateNode (restIdOfLink existingLink))
  let node ←
    match r with
    | .ok v => pure v
    | .error (.http 409) => throwS (.referenceError "nodeRequest")
    | .error e => throwS e
  syncNodeIpAddressesAsync env params.serviceInstanceId node params.ipAddresses

/-- The machine parameters assembled by the node upsert. -/
structure MachineParams where
  name : String
  hostname : String := ""
  domain : String := ""
  os : String := ""
  platform : String := ""
  ipAddress : String := ""
  dataCenter : Option String := none

/-- `createMachineAsync`: `POST machines/`; on a 409 the handler calls
`getMachinesByNameAsync(params.name)`, which itself throws a
`ReferenceError` on the undeclared `options` before issuing any request;
the remaining zero/one/many classification of the re-fetch result is
therefore unreachable, though it is embedded below as written. -/
def createMachineAsync (env : SeisoEnv) (params : MachineParams) : SeisoM SeisoVal := do
  let r ← issueCollect (.postMachine params.name) (env.createMachine params.name)
  match r with
  | .ok v => pure v
  | .error (.http 409) => do
    let matchingMachines ← getMachinesByNameAsync env params.name
    match matchingMachines with
    | .null => throwS (.reject "Machine creation failed with conflict but machine does not exist")
    | .array ms =>
      if ms.length > 1 then
        throwS (.reject "Machine creation failed with conflict and machine retrieval found multiple matching machines")
      else
        match ms.head? with
        | some m => pure (.record m)
        | none => pure .null
    | .record m => pure (.record m)
  | .error e => throwS e

/-- `updateMachineAsync`: `PUT machines/{id}`; its conflict handler has the
same unreachable re-fetch through `getMachinesByNameAsync` as machine
creation. -/
def updateMachineAsync (env : SeisoEnv) (id : String) (params : MachineParams) :
    SeisoM SeisoVal := do
  let r ← issueCollect (.putMachine id) (env.updateMachine id)
  match r with
  | .ok v => pure v
  | .error (.http 409) => do
    let matchingMachines ← getMachinesByNameAsync env params.name
    match matchingMachines with
    | .null => throwS (.reject "Machine update failed with conflict but machine does not exist")
    | .array ms =>
      if ms.length > 1 then
        throwS (.reject "Machine update failed with conflict and machine retrieval found multiple matching machines")
      else
        match ms.head? with
        | some m => pure (.record m)
        | none => pure .null
    | .record m => pure (.record m)
  | .error e => throwS e

/-- `upsertMachineAsync`: look up the machine by name (404 ignored); a
truthy result is updated in place, otherwise the machine is created. -/
def upsertMachineAsync (env : SeisoEnv) (params : MachineParams) : SeisoM SeisoVal := do
  let machine ← issue (.getMachineByName params.name)
    (ignoring404 (env.machineByName params.name))
  match machine with
  | .null => createMachineAsync env params
  | found => do
    let link ← liftJs (jsRecordLink found)
    updateMachineAsync env (restIdOfLink link) params

/-- `patchNodeAggregateRotationStatus`: `PATCH nodes/{id}` with the new
aggregate rotation status. -/
def patchNodeAggregateRotationStatus (env : SeisoEnv) (node : SeisoVal) :
    SeisoM Unit := do
  let link ← liftJs (jsRecordLink node)
  issue (.patchNodeRotationStatus (restIdOfLink link)) (env.patchNode (restIdOfLink link))

/-! ## Node upsert (`upsertNodeAsync`) -/

/-- The client-side precached domain data (`environments`, `dataCenters`),
loaded once at client construction. -/
structure SeisoConfig where
  environments : String → Option SeisoRecord := fun _ => none
  dataCenters : String → Option SeisoRecord := fun _ => none

/-- The parameters of one node upsert, as documented on
`upsertNodeAsync`. Optional fields model absent (`undefined`)
properties. -/
structure UpsertParams where
  service : String := ""
  environment : String := ""
  environmentType : String := ""
  loadBalanced : Bool := false
  loadBalancer : Option String := none
  dataCenter : String := ""
  owner : String := ""
  name : String := ""
  machineName : String := ""
  hostname : String := ""
  domain : String := ""
  os : String := ""
  platform : String := ""
  ipAddress : String := ""
  ports : Option (List Nat) := none
  tags : Option (List (String × String)) := none

/-- Look up a tag value in a tag map. -/
def lookupTag (tags : List (String × String)) (k : String) : Option String :=
  (tags.find? (fun kv => kv.1 = k)).map (·.2)

/-- Truthiness of `params.tags && params.tags['AWS Instance ID']`: the tag
map must be present and the tag value truthy (present and non-empty). -/
def hasAwsInstanceIdTag (params : UpsertParams) : Bool :=
  match params.tags with
  | none => false
  | some tags => jsTruthyStr (lookupTag tags "AWS Instance ID")

/-- Truthiness of the ports check of `upsertNodeAsync`: `ports` must be a
present, non-empty array. -/
def hasValidPorts (params : UpsertParams) : Bool :=
  match params.ports with
  | none => false
  | some ps => ps.length != 0

/-- The validation phase of `upsertNodeAsync`, in source order: each failed
check appends its message to the validation-error list. -/
def upsertValidationErrors (params : UpsertParams) : List String :=
  (if hasAwsInstanceIdTag params then []
   else ["Required tag AWS Instance ID not present"]) ++
  (if hasValidPorts params then []
   else ["At least one port must be specified (or ports are not in correct format)"])

/-- `upsertNodeAsync`: validate locally and reject (with the full
validation-error list) before any remote call; look up the node by name
(an item collection with more than one element is a hard duplicate-data
reject, any other truthy result is remembered as the existing node);
find-or-create the service by key; find-or-create the service instance by
composite key; upsert the machine; then create the node if none was found
or update the found one, either path ending in IP-address
reconciliation. -/
def upsertNodeAsync (env : SeisoEnv) (cfg : SeisoConfig) (params : UpsertParams) :
    SeisoM SeisoVal := do
  let validationErrors := upsertValidationErrors params
  if validationErrors.length > 0 then
    throwS (.validation validationErrors)
  else do
    let matchingNodes ← findNodesAsync env params.name
    let node : Option SeisoVal ←
      match matchingNodes with
      | .array ns =>
        if ns.length > 1 then throwS (.reject "Multiple nodes already exist with that AWS instance ID")
        else pure (some (.array ns))
      | .record r => pure (some (.record r))
      | .null => pure none
    let existingService ← getServiceAsync env params.service
    let service ←
      match existingService with
      | .null => createServiceAsync env params.service
      | found => pure found
    let serviceLink ← liftJs (jsRecordLink service)
    let foundServiceInstance ← getServiceInstanceAsync env params.service params.environmentType
    let serviceInstance ←
      match foundServiceInstance with
      | .null =>
        createServiceInstanceAsync env
          { key := params.service ++ "-" ++ params.environmentType
            service := serviceLink
            environment := (cfg.environments params.environment).map getRestRecordLink
            dataCenter := (cfg.dataCenters params.dataCenter).map getRestRecordLink
            ports := params.ports.getD []
            loadBalanced := params.loadBalanced
            loadBalancer := params.loadBalancer }
      | found => pure found
    let serviceInstanceLink ← liftJs (jsRecordLink serviceInstance)
    let serviceInstanceId := restIdOfLink serviceInstanceLink
    let machine ← upsertMachineAsync env
      { name := params.machineName
        hostname := params.hostname
        domain := params.domain
        os := params.os
        platform := params.platform
        ipAddress := params.ipAddress
        dataCenter := (cfg.dataCenters params.dataCenter).map getRestRecordLink }
    let machineLink ← liftJs (jsRecordLink machine)
    match node with
    | none =>
      createNodeAsync env
        { name := params.name
          version := "1.0.0"
          serviceInstanceId := serviceInstanceId
          serviceInstanceLink := serviceInstanceLink
          machine := machineLink
          ipAddresses := [params.ipAddress] }
    | some existing =>
      updateNodeAsync env existing
        { name := params.name
          version := "1.0.0"
          serviceInstanceId := serviceInstanceId
          serviceInstanceLink := serviceInstanceLink
          machine := machineLink
          ipAddresses := [params.ipAddress]
          tags := (params.tags.getD []) }

/-! ## Orchestrator lifecycle (`src/orchestrator.js`) -/

/-- The orchestrator lifecycle states. -/
inductive OrchState where
  | Stopped
  | Starting
  | Started
  | Stopping
  | Unknown
deriving DecidableEq, Repr

/-- The observable effects of one synchronous `start()` invocation. -/
inductive StartEffect where
  | scheduleCallback (err : Option String)
  | registerSubscribers
  | launchBootstrap
deriving DecidableEq, Repr

/-- The synchronous part of `start(callback)`: when already `Started`, the
callback is scheduled for the next tick with a `null` error and `false` is
returned with no other effect; otherwise the start/stop completion
subscribers are registered for the callback, then an already-`Starting`
state returns `false` without launching anything; any other state moves to
`Starting` and launches the concurrent component bootstrap, returning
`true`. The result is (returned value, effects in order, new state). -/
def startCall (hasCallback : Bool) (state : OrchState) :
    Bool × List StartEffect × OrchState :=
  if state = .Started then
    (false, (if hasCallback then [.scheduleCallback none] else []), state)
  else
    let effects := if hasCallback then [StartEffect.registerSubscribers] else []
    if state = .Starting then
      (false, effects, state)
    else
      (true, effects ++ [.launchBootstrap], .Starting)

/-- One invocation of the caller's completion callback. -/
inductive CallbackCall where
  | success
  | failure (err : String)
deriving DecidableEq, Repr

/-- An orchestrator lifecycle event emission. -/
inductive OrchEvent where
  | started
  | stopped (err : Option String)
deriving DecidableEq, Repr

/-- The orchestrator process state observed by one `start(callback)`
caller: the lifecycle state, the `notified` flag of the callback wiring,
whether each once-subscription is still armed, and the accumulated
callback invocations and emitted events. -/
structure OrchSim where
  state : OrchState
  notified : Bool
  startedSubscriber : Bool
  stoppedSubscriber : Bool
  callbackCalls : List CallbackCall
  events : List OrchEvent
deriving DecidableEq, Repr

/-- Emit the `started` event: the armed once-subscriber sets `notified`
and invokes the callback with success. -/
def emitStarted (s : OrchSim) : OrchSim :=
  let s1 := { s with events := s.events ++ [OrchEvent.started] }
  if s1.startedSubscriber then
    { s1 with startedSubscriber := false, notified := true,
              callbackCalls := s1.callbackCalls ++ [.success] }
  else s1

/-- Emit the `stopped` event: the armed once-subscriber invokes the
callback with `event.Error || 'Stopped for unknown reason'` unless the
`started` subscriber already notified. -/
def emitStopped (err : Option String) (s : OrchSim) : OrchSim :=
  let s1 := { s with events := s.events ++ [OrchEvent.stopped err] }
  if s1.stoppedSubscriber then
    let s2 := { s1 with stoppedSubscriber := false }
    if s2.notified then s2
    else { s2 with callbackCalls := s2.callbackCalls ++ [.failure (err.getD "Stopped for unknown reason")] }
  else s1

/-- The first component failure, as `Promise.all` over the concurrent
component initializations reports it. -/
def firstComponentError : List (Except String Unit) → Option String
  | [] => none
  | .ok () :: rest => firstComponentError rest
  | .error e :: _ => some e

/-- The continuation chained onto the component bootstrap,
`Promise.all([...]).catch(handler).then(handler)`: on a failure the catch
handler sets the state to `Stopped` and emits `stopped` with the error;
because the catch handler returns normally, the chained then handler runs
afterwards in every case, setting the state to `Started` and emitting
`started`. -/
def startContinuation (componentResults : List (Except String Unit)) (s : OrchSim) :
    OrchSim :=
  match firstComponentError componentResults with
  | some err =>
    let s1 := emitStopped (some err) { s with state := .Stopped }
    emitStarted { s1 with state := .Started }
  | none =>
    emitStarted { s with state := .Started }

/-- A full `start(callback)` from `Stopped`: the completion subscribers
are registered and the state moves to `Starting` (per `startCall`), the
component bootstraps are launched, and once they settle with
`componentResults` the chained continuation runs. -/
def startFromStopped (componentResults : List (Except String Unit)) : OrchSim :=
  startContinuation componentResults
    { state := .Starting, notified := false,
      startedSubscriber := true, stoppedSubscriber := true,
      callbackCalls := [], events := [] }

/-! ## Rotation handlers (`src/orchestrator.js`) -/

/-- How one `rotateInstance` promise settles: fulfilled, rejected, or
never settled (the custom-mapping failure branch only logs and calls
neither `resolve` nor `reject`). -/
inductive SettleState where
  | resolved
  | rejected
  | pending
deriving DecidableEq, Repr

/-- The observable result of `rotateInstance` for one instance: how its
promise settles and, when a rotation-status patch was issued, the
outcome of that patch request. -/
structure RotateResult where
  outcome : SettleState
  patch : Option (Except Nat Unit)
deriving DecidableEq, Repr

/-- `rotateInstance(instance, state)`: stamp the status link onto the
instance, validate it with the mapper (a non-empty error list rejects),
translate it to a node, run the custom transformer chain (a chain failure
is only logged, leaving the promise unsettled), then look up the node by
name. A `null` lookup response makes `nodeResponse.length` throw a
`TypeError` (rejecting); an item collection rejects on fewer or more than
exactly one element, and with exactly one element the synchronous
`getRestRecordId` inside the patch call throws a `TypeError` on the array
(rejecting); a single-record response passes both length guards
(`undefined` compares false against 1 on both sides) and issues the
patch — whose promise is not returned, so the instance resolves regardless
of the patch outcome. -/
def rotateInstance (mappers : List NamedMapper) (env : SeisoEnv)
    (statusLink : String) (inst : InstanceDetails) : RotateResult :=
  let stamped := { inst with state := some statusLink }
  match validateMessage (some stamped) with
  | .error _ => { outcome := .rejected, patch := none }
  | .ok validationErrors =>
    if validationErrors.length > 0 then { outcome := .rejected, patch := none }
    else
      let node := instanceToNode stamped
      match mapChain mappers node with
      | .error _ => { outcome := .pending, patch := none }
      | .ok node2 =>
        match ignoring404 (env.nodesByName node2.name) with
        | .error _ => { outcome := .rejected, patch := none }
        | .ok .null => { outcome := .rejected, patch := none }
        | .ok (.array ns) =>
          if ns.length < 1 then { outcome := .rejected, patch := none }
          else if ns.length > 1 then { outcome := .rejected, patch := none }
          else { outcome := .rejected, patch := none }
        | .ok (.record r) =>
          { outcome := .resolved, patch := some (env.patchNode (getRestRecordId r)) }

/-- A rotation event payload: the triggering message's deletion token and
the instance batch. -/
structure RotateEvent where
  deletionToken : String
  instances : List InstanceDetails

/-- `instanceRotateInHandler(event)`: resolve the cached "enabled"
rotation status (a missing cache entry makes the handler throw on
`rs._links` before any instance is processed), run `rotateInstance` on
every instance of the batch, and delete the triggering message exactly
when all of those promises fulfilled (`Promise.all` then-branch); any
rejection or unsettled member leaves the message unacknowledged. Returns
whether the message was acknowledged plus the per-instance results. -/
def instanceRotateInHandler (mappers : List NamedMapper) (env : SeisoEnv)
    (rotationStatuses : List SeisoRecord) (event : RotateEvent) :
    Bool × List RotateResult :=
  match rotationStatuses.find? (fun r => r.key = "enabled") with
  | none => (false, [])
  | some rs =>
    let results := event.instances.map (rotateInstance mappers env (getRestRecordLink rs))
    (results.all (fun r => r.outcome = .resolved), results)

/-- Whether one instance's rotation update actually succeeded: its
promise fulfilled and the issued patch request succeeded. -/
def rotationUpdateSucceeded : RotateResult → Bool
  | { outcome := .resolved, patch := some (.ok ()) } => true
  | _ => false

/-! ## Concrete environments and inputs used by the theorems -/

/-- A benign remote inventory: every lookup misses, every create
succeeds, the default IP-address role exists, and the node carries no
IP addresses yet. -/
def baseEnv : SeisoEnv where
  nodesByName := fun _ => .ok .null
  serviceByKey := fun _ => .ok (.record { selfLink := "u/services/1", name := "svc", key := "svc" })
  createService := fun _ => .ok (.record { selfLink := "u/services/1", name := "svc", key := "svc" })
  serviceInstanceByKey := fun _ => .ok (.record { selfLink := "u/serviceInstances/7" })
  createServiceInstance := fun _ => .ok (.record { selfLink := "u/serviceInstances/7" })
  createServiceInstancePort := fun _ => .ok .null
  createIpAddressRole := fun _ => .ok .null
  machineByName := fun _ => .ok .null
  createMachine := fun _ => .ok (.record { selfLink := "u/machines/3" })
  updateMachine := fun _ => .ok (.record { selfLink := "u/machines/3" })
  createNode := fun _ => .ok (.record { selfLink := "u/nodes/9" })
  updateNode := fun _ => .ok (.record { selfLink := "u/nodes/9" })
  nodeIpAddresses := fun _ => .ok (some [])
  ipAddressRoles := fun _ => .ok (.array [{ selfLink := "u/ipAddressRoles/5", name := "default" }])
  deleteIpAddr := fun _ => .ok ()
  createIpAddr := fun _ => .ok ()
  patchNode := fun _ => .ok ()

/-- The inventory under a concurrent-creation race: `POST nodes/` and
`POST machines/` answer 409 Conflict. -/
def conflictEnv : SeisoEnv :=
  { baseEnv with
    createNode := fun _ => .error 409
    createMachine := fun _ => .error 409 }

/-- The node record used in the IP-reconciliation runs. -/
def nodeNine : SeisoVal := .record { selfLink := "u/nodes/9" }

/-- An inventory on which node 9 currently has the two addresses
10.0.0.1 (record 11) and 10.0.0.2 (record 12) bound. -/
def ipEnvAB : SeisoEnv :=
  { baseEnv with
    nodeIpAddresses := fun _ => .ok (some
      [{ selfLink := "u/nodeIpAddresses/11", ipAddress := "10.0.0.1" },
       { selfLink := "u/nodeIpAddresses/12", ipAddress := "10.0.0.2" }]) }

/-- A valid instance-details object with the given instance id and a
fully-qualified private DNS name. -/
def instGood (id : String) : InstanceDetails :=
  { InstanceId := some id, PrivateDnsName := some (id ++ ".example.internal") }

/-- The cached rotation statuses, holding the expected enabled/disabled
entries. -/
def rotationStatusList : List SeisoRecord :=
  [{ selfLink := "u/rotationStatuses/1", key := "enabled" },
   { selfLink := "u/rotationStatuses/2", key := "disabled" }]

/-- An inventory on which the node lookup for instance i-b finds nothing
while every other lookup finds exactly one node record, and patches
succeed. -/
def rotateEnvPartial : SeisoEnv :=
  { baseEnv with
    nodesByName := fun n => if n = "i-b" then .ok .null else .ok (.record { selfLink := "u/nodes/" ++ n }) }

/-- An inventory on which every node lookup finds exactly one record but
the rotation-status `PATCH` fails with a 500. -/
def rotateEnvPatchFail : SeisoEnv :=
  { baseEnv with
    nodesByName := fun n => .ok (.record { selfLink := "u/nodes/" ++ n })
    patchNode := fun _ => .error 500 }

/-- Benign cloud control-plane responses: no autoscaling membership, no
load balancers, no reservations. -/
def benignAws : AwsEnv where
  autoScalingInstances := .ok []
  elbLoadBalancers := .ok []
  describeInstances := .ok []

/-- A register event whose payload has an empty `instances` list but a
load-balancer name and an event name. -/
def emptyInstancesMsg : IngestMsg :=
  { detailType := some lbRegistrationEventType
    detail :=
      { requestParameters := { instances := some [], loadBalancerName := some "my-lb" }
        eventName := some "RegisterInstancesWithLoadBalancer" }
    region := some "us-west-2"
    deletionToken := "tok-1" }

/-- A register event whose payload lists one instance entry that carries
no `instanceId`. -/
def noInstanceIdMsg : IngestMsg :=
  { detailType := some lbRegistrationEventType
    detail :=
      { requestParameters :=
          { instances := some [{ instanceId := none }], loadBalancerName := some "my-lb" }
        eventName := some "RegisterInstancesWithLoadBalancer" }
    region := some "us-west-2"
    deletionToken := "tok-2" }

/-- A message with an unrelated classification. -/
def stateChangeMsg : IngestMsg :=
  { detailType := some "EC2 Instance State-change Notification"
    deletionToken := "tok-3" }

/-- A custom transformer that succeeds, marking the hostname. -/
def tFirst : NamedMapper :=
  { name := "first", map := fun n => .ok { n with hostname := n.hostname ++ "-mapped" } }

/-- A custom transformer that always fails. -/
def tBoom : NamedMapper :=
  { name := "boom", map := fun _ => .error "boom" }

/-- A custom transformer placed after the failing one; it would change
the node if it ever ran. -/
def tLater : NamedMapper :=
  { name := "later", map := fun n => .ok { n with hostname := "overwritten" } }

/-- The node fed to the transformer-chain witness. -/
def chainNode : SNode := instanceToNode (instGood "i-w")

/-! ## Theorems for the claims -/

/-- C1: on a 409 Conflict to the create, the protocol is supposed to
re-fetch the record by natural key and accept exactly one match. The code
never gets there: the node-create conflict handler evaluates the
undeclared identifier `params` (its parameter is `nodeRequest`) and the
machine-create conflict handler calls `getMachinesByNameAsync`, whose body
evaluates the undeclared identifier `options`; both therefore reject with
a `ReferenceError` after the single POST, issuing no re-fetch at all. -/
theorem c1_create_conflict_reference_error :
    runSeiso (createNodeAsync conflictEnv
        { name := "node-1", serviceInstanceId := "7", ipAddresses := ["10.0.0.1"] }) =
      (.error (.referenceError "params"), [.postNode "node-1"]) ∧
    runSeiso (createMachineAsync conflictEnv { name := "machine-1" }) =
      (.error (.referenceError "options"), [.postMachine "machine-1"]) :=
  ⟨rfl, rfl⟩

/-- C2: with existing addresses 10.0.0.1 and 10.0.0.2 and desired
addresses 10.0.0.2 and 10.0.0.3, one reconciliation run issues exactly one
delete (of 10.0.0.1), one create (of 10.0.0.3, bound to the default role),
and nothing for 10.0.0.2 — the claimed convergence example. But with no
existing addresses and two desired ones, the loop-variable capture makes
the run issue two creates, both for the last address 10.0.0.2 and none
for 10.0.0.1, refuting the general per-address claim. -/
theorem c2_ip_reconciliation_ops :
    runSeiso (syncNodeIpAddressesAsync ipEnvAB "7" nodeNine ["10.0.0.2", "10.0.0.3"]) =
      (.ok nodeNine,
       [.getNodeIpAddresses "9", .deleteNodeIpAddress "11", .getIpAddressRoles "7",
        .postNodeIpAddress "u/ipAddressRoles/5" "10.0.0.3"]) ∧
    runSeiso (syncNodeIpAddressesAsync baseEnv "7" nodeNine ["10.0.0.1", "10.0.0.2"]) =
      (.ok nodeNine,
       [.getNodeIpAddresses "9", .getIpAddressRoles "7",
        .postNodeIpAddress "u/ipAddressRoles/5" "10.0.0.2",
        .postNodeIpAddress "u/ipAddressRoles/5" "10.0.0.2"]) :=
  ⟨rfl, rfl⟩

/-- C3: when a component initialization fails during start, the pipeline
is supposed to end `Stopped` with the callback notified of the failure
exactly once. Because the bootstrap continuation is
`catch(handler).then(handler)`, the failed run instead emits `stopped`
with the error and then still emits `started`, leaves the final state
`Started`, and invokes the callback twice: first with the failure, then
with success. -/
theorem c3_failed_start_reaches_started :
    (startFromStopped [.error "listener failed"]).state = .Started ∧
    (startFromStopped [.error "listener failed"]).events =
      [.stopped (some "listener failed"), .started] ∧
    (startFromStopped [.error "listener failed"]).callbackCalls =
      [.failure "listener failed", .success] :=
  ⟨rfl, rfl, rfl⟩

/-- C4: in a batch of three instances where the middle lookup finds zero
nodes, the message is not acknowledged while the other two instances are
still patched — the partial-batch side of the claim. But acknowledgment
only requires every rotateInstance promise to fulfill, and a fulfilled
promise does not await its patch: a single-instance batch whose patch
fails with a 500 still gets its message acknowledged although the
rotation update did not succeed, refuting the only-if direction. -/
theorem c4_ack_despite_patch_failure :
    instanceRotateInHandler [] rotateEnvPartial rotationStatusList
        { deletionToken := "tok-r",
          instances := [instGood "i-a", instGood "i-b", instGood "i-c"] } =
      (false, [{ outcome := .resolved, patch := some (.ok ()) },
               { outcome := .rejected, patch := none },
               { outcome := .resolved, patch := some (.ok ()) }]) ∧
    instanceRotateInHandler [] rotateEnvPatchFail rotationStatusList
        { deletionToken := "tok-s", instances := [instGood "i-a"] } =
      (true, [{ outcome := .resolved, patch := some (.error 500) }]) ∧
    rotationUpdateSucceeded { outcome := .resolved, patch := some (.error 500) } = false :=
  ⟨rfl, rfl, rfl⟩

/-- C5: a register message with an empty instances list, and one whose
only instance entry has no instanceId, both pass `messageValidate`
(the filter result is an always-truthy array), and the empty-instances
message is then processed as valid: no failure, message left for its
semantic consumer, and an `instance-rotate-in` event emitted with an
empty instance batch — contradicting the claim that such messages fail
processing. -/
theorem c5_invalid_shape_processed_as_valid :
    messageValidate emptyInstancesMsg = true ∧
    messageValidate noInstanceIdMsg = true ∧
    processMessage benignAws emptyInstancesMsg =
      { semanticEvents := [.rotateIn "tok-1" []], acked := false, failed := false } :=
  ⟨rfl, rfl, rfl⟩

/-- C6: a message whose detail-type is not the load-balancer
register/deregister classification is acknowledged immediately and emits
no semantic event, regardless of the control-plane environment and of the
rest of the message. -/
theorem c6_unrecognized_classification_discarded (env : AwsEnv) (m : IngestMsg)
    (h : m.detailType ≠ some lbRegistrationEventType) :
    processMessage env m = { semanticEvents := [], acked := true, failed := false } := by
  unfold processMessage
  rw [if_neg h]

/-- C6 witness: discharging the classification hypothesis on a concrete
EC2 state-change message. -/
theorem c6_discard_witness :
    stateChangeMsg.detailType ≠ some lbRegistrationEventType ∧
    processMessage benignAws stateChangeMsg =
      { semanticEvents := [], acked := true, failed := false } :=
  ⟨by decide, c6_unrecognized_classification_discarded benignAws stateChangeMsg (by decide)⟩

/-- C7: calling start while `Started` schedules the callback with success,
returns false and performs no other effect; calling start while `Starting`
returns false and never launches a second bootstrap, leaving the state
`Starting`. -/
theorem c7_start_idempotence :
    startCall true .Started = (false, [.scheduleCallback none], .Started) ∧
    startCall false .Started = (false, [], .Started) ∧
    (∀ hasCallback, (startCall hasCallback .Starting).1 = false ∧
      (startCall hasCallback .Starting).2.2 = .Starting ∧
      StartEffect.launchBootstrap ∉ (startCall hasCallback .Starting).2.1) := by
  refine ⟨rfl, rfl, fun hasCallback => ?_⟩
  cases hasCallback <;> exact ⟨rfl, rfl, by decide⟩

/-- C8: a node upsert whose parameters lack the AWS-Instance-ID tag or a
non-empty ports array rejects with the validation-error list — which
names every missing field — and issues no remote call at all. -/
theorem c8_validation_rejects_before_remote_calls (env : SeisoEnv)
    (cfg : SeisoConfig) (params : UpsertParams)
    (h : ¬ hasAwsInstanceIdTag params ∨ ¬ hasValidPorts params) :
    runSeiso (upsertNodeAsync env cfg params) =
      (.error (.validation (upsertValidationErrors params)), []) ∧
    (¬ hasAwsInstanceIdTag params →
      "Required tag AWS Instance ID not present" ∈ upsertValidationErrors params) ∧
    (¬ hasValidPorts params →
      "At least one port must be specified (or ports are not in correct format)" ∈
        upsertValidationErrors params) := by
  have hpos : 0 < (upsertValidationErrors params).length := by
    rcases h with h | h
    · simp [upsertValidationErrors, h]
    · simp [upsertValidationErrors, h]
  refine ⟨?_, ?_, ?_⟩
  · simp only [upsertNodeAsync]
    rw [if_pos hpos]
    rfl
  · intro htag
    simp [upsertValidationErrors, htag]
  · intro hports
    simp [upsertValidationErrors, hports]

/-- C8 witness: the empty parameter object lacks both required fields;
the upsert rejects with both messages and an empty remote-call trace. -/
theorem c8_validation_witness :
    (¬ hasAwsInstanceIdTag {} ∨ ¬ hasValidPorts {}) ∧
    (runSeiso (upsertNodeAsync baseEnv {} {}) =
        (.error (.validation (upsertValidationErrors {})), []) ∧
     (¬ hasAwsInstanceIdTag {} →
       "Required tag AWS Instance ID not present" ∈ upsertValidationErrors {}) ∧
     (¬ hasValidPorts {} →
       "At least one port must be specified (or ports are not in correct format)" ∈
         upsertValidationErrors {})) :=
  ⟨Or.inl (by decide),
   c8_validation_rejects_before_remote_calls baseEnv {} {} (Or.inl (by decide))⟩

/-- Composition of the transformer chain over list append: whatever the
first stages produce is exactly what the remaining stages receive, and a
failure in the first stages is the failure of the whole chain. -/
theorem mapChain_append (xs ys : List NamedMapper) (n : SNode) :
    mapChain (xs ++ ys) n = (mapChain xs n).bind (fun n2 => mapChain ys n2) := by
  induction xs generalizing n with
  | nil => rfl
  | cons m ms ih =>
    simp only [List.cons_append, mapChain]
    cases m.map n with
    | error e => rfl
    | ok n2 => exact ih n2

/-- C9: the transformer chain is strictly sequential — over any split the
later stages consume exactly the earlier stages' output — and it
short-circuits: when the stages before `m` succeed with `n1` and `m`
fails on `n1`, the chain's result is the failure tagged with the name of
`m`, and it is unchanged under arbitrary replacement of the stages after
`m` (no later stage can affect it, i.e. none runs). -/
theorem c9_chain_sequential_short_circuit
    (pre : List NamedMapper) (m : NamedMapper) (post : List NamedMapper)
    (n n1 : SNode) (e : String)
    (hpre : mapChain pre n = .ok n1) (hm : m.map n1 = .error e) :
    (∀ xs ys nd, mapChain (xs ++ ys) nd = (mapChain xs nd).bind (fun n2 => mapChain ys n2)) ∧
    (∀ post2, mapChain (pre ++ m :: post) n = mapChain (pre ++ m :: post2) n) ∧
    mapChain (pre ++ m :: post) n = .error { mapper := m.name, error := e } := by
  have hfail : ∀ ps, mapChain (pre ++ m :: ps) n = .error { mapper := m.name, error := e } := by
    intro ps
    rw [mapChain_append, hpre]
    show mapChain (m :: ps) n1 = _
    simp only [mapChain, hm]
  exact ⟨fun xs ys nd => mapChain_append xs ys nd,
         fun post2 => by rw [hfail post, hfail post2],
         hfail post⟩

/-- C9 witness: a three-stage chain whose middle stage fails, applied to
the node of a concrete instance; the chain reports the middle stage by
name and ignores the final stage. -/
theorem c9_chain_witness :
    (∀ xs ys nd, mapChain (xs ++ ys) nd = (mapChain xs nd).bind (fun n2 => mapChain ys n2)) ∧
    (∀ post2, mapChain ([tFirst] ++ tBoom :: [tLater]) chainNode =
       mapChain ([tFirst] ++ tBoom :: post2) chainNode) ∧
    mapChain ([tFirst] ++ tBoom :: [tLater]) chainNode =
      .error { mapper := "boom", error := "boom" } :=
  c9_chain_sequential_short_circuit [tFirst] tBoom [tLater] chainNode
    { chainNode with hostname := chainNode.hostname ++ "-mapped" } "boom" rfl rfl

/-- C10: the mapper's validateMessage dereferences the instance details
before its null/undefined guard: on a null or undefined argument it
throws a TypeError instead of returning the "Instance details not
present" error list, while on any present details object it returns a
validation-error list normally. -/
theorem c10_validate_message_null_throws :
    validateMessage none =
      .error (.typeError "Cannot read InstanceId of null or undefined") ∧
    (∀ d : InstanceDetails, (validateMessage (some d)).isOk = true) :=
  ⟨rfl, fun _ => rfl⟩
